import Mathlib

/-!
Shallow embedding of `src/edge_computer/main.cpp` (Realsense-Multicam-Python,
edge-computer capture program).

The program wraps the librealsense2 SDK.  All SDK behaviour (device
enumeration, filters, metadata queries) is modelled as an abstract
environment `Sdk` plus a `RunInput` describing what the device session
returns on each call.  The locally-authored logic — argument handling,
warm-up, the capture loop, the two persistence functions and the metadata
writer — is translated statement by statement.  File-system writes and
standard-output lines are recorded as lists of effects.
-/

namespace EdgeComputer

/-- Stream kinds used by the program (RS2_STREAM_DEPTH / RS2_STREAM_COLOR). -/
inductive RsStream
  | depth
  | color
deriving DecidableEq

/-- Payload of a frame that casts successfully to `rs2::video_frame`:
dimensions, bytes per pixel, row stride and the pixel buffer
(`get_width`, `get_height`, `get_bytes_per_pixel`, `get_stride_in_bytes`,
`get_data`). -/
structure VideoData where
  width : Nat
  height : Nat
  bytesPerPixel : Nat
  strideInBytes : Nat
  buffer : List Nat
deriving DecidableEq

/-- Per-frame metadata attribute set: for each attribute index of the fixed
enumeration, whether `supports_frame_metadata` holds and the value
`get_frame_metadata` returns (a signed integer, `rs2_metadata_type`). -/
structure MetaSet where
  supported : Nat → Bool
  value : Nat → Int

/-- An `rs2::frame`.  `video = some _` exactly when the frame casts to
`rs2::video_frame` (the `frame.as<rs2::video_frame>()` test). -/
structure Frame where
  frameNumber : Nat
  stream : RsStream
  meta : MetaSet
  video : Option VideoData

/-- An `rs2::frameset`: one depth frame and one color frame
(`get_depth_frame` / `get_color_frame`). -/
structure Frameset where
  depthFrame : Frame
  colorFrame : Frame

/-- An `rs2::error`: failed function name, failed arguments and message
(`get_failed_function`, `get_failed_args`, `what`). -/
structure RsError where
  failedFunction : String
  failedArgs : String
  message : String
deriving DecidableEq

/-- Abstract SDK environment: the filter implementations (parameterised by
the option values the program sets), the stream-name and metadata-name
tables, and the size of the metadata enumeration
(RS2_FRAME_METADATA_COUNT).  Filter option values are modelled as exact
rationals. -/
structure Sdk where
  decimationProcess : Rat → Frame → Frame
  spatialProcess : Rat → Frame → Frame
  disparityTransform : Bool → Frame → Frame
  streamToString : RsStream → String
  metadataCount : Nat
  metadataName : Nat → String

/-- Content of one written file: a raw binary dump, a png encode request
(`stbi_write_png` arguments), or a text file. -/
inductive FileContent
  | raw (bytes : List Nat)
  | png (width height comp : Nat) (buffer : List Nat) (stride : Nat)
  | text (content : String)
deriving DecidableEq

/-- One file written to disk: path and content. -/
structure FileWrite where
  path : String
  content : FileContent
deriving DecidableEq

/-- Observable events of a run, in program order. -/
inductive Event
  | queryDevices
  | enableStream (s : RsStream)
  | startPipe
  | readArg (k : Nat)
  | waitFrames (k : Nat)
  | dispatch (s : RsStream) (k : Nat)
deriving DecidableEq

/-- How the process ends.  `exit c` is a normal return with exit code `c`.
`ub` marks the undefined behaviour of reading a missing `argv` entry
(`argv[argc]` is a null pointer).  `terminated` marks a `std::terminate`
caused by destroying a `std::vector` of joinable `std::thread`s during
stack unwinding. -/
inductive Outcome
  | exit (code : Nat)
  | ub
  | terminated
deriving DecidableEq

/-- Result of a run: outcome, files written, stdout lines, stderr lines,
event trace, and the wait-call indices whose framesets were handed to
persistence tasks. -/
structure RunResult where
  outcome : Outcome
  writes : List FileWrite
  outLines : List String
  errLines : List String
  trace : List Event
  dispatched : List Nat
deriving DecidableEq

/-- Input of a run: device count reported by `query_devices`, the two
command-line arguments when present (`none` models `argc` too small, in
which case the C program reads a null pointer), whether `pipe.start`
throws, and the result of the k-th `wait_for_frames` call (0-based over
the whole run, warm-up included). -/
structure RunInput where
  deviceCount : Nat
  argv1 : Option String
  argv2 : Option String
  startResult : Option RsError
  waitResult : Nat → Except RsError Frameset

/-! ### Decimal rendering

`std::stringstream << n` for an unsigned integer prints the decimal
digits, most significant first.  The fuel-based helper makes the
definition structurally recursive. -/

/-- Decimal digit characters of `n`, most significant first, empty for 0.
`fuel ≥ n` suffices for full evaluation. -/
def natDecimalAux : Nat → Nat → List Char
  | 0, _ => []
  | fuel + 1, n =>
    if n = 0 then [] else natDecimalAux fuel (n / 10) ++ [Nat.digitChar (n % 10)]

/-- Decimal rendering of a natural number, as `operator<<` prints it. -/
def natDecimal (n : Nat) : String :=
  if n = 0 then "0" else (natDecimalAux n n).asString

/-- Decimal rendering of a signed integer, as `operator<<` prints it. -/
def intDecimal (i : Int) : String :=
  if i < 0 then "-" ++ natDecimal i.natAbs else natDecimal i.toNat

/-! ### strtol (base 10)

`main` parses `argv[1]` with `strtol(argv[1], &output, 10)` and never
inspects `output` or `errno`: leading whitespace is skipped, an optional
sign is read, then the longest digit prefix; no digits yields 0; overflow
saturates at LONG_MAX / LONG_MIN (LP64 `long`). -/

/-- C `isspace` characters in the default locale. -/
def isCSpace (c : Char) : Bool :=
  c = ' ' || c = '\t' || c = '\n' || c = Char.ofNat 11 || c = Char.ofNat 12 || c = '\r'

/-- Drop leading whitespace, as `strtol` does. -/
def skipSpaces : List Char → List Char
  | [] => []
  | c :: cs => if isCSpace c then skipSpaces cs else c :: cs

/-- Value of the longest leading digit run, accumulated left to right. -/
def digitsValue : List Char → Nat → Nat
  | [], acc => acc
  | c :: cs, acc => if c.isDigit then digitsValue cs (acc * 10 + (c.toNat - 48)) else acc

/-- LONG_MAX on an LP64 platform. -/
def longMax : Int := 9223372036854775807

/-- LONG_MIN on an LP64 platform. -/
def longMin : Int := -9223372036854775808

/-- `strtol(s, _, 10)`: skip spaces, optional sign, longest digit prefix
(0 when there are no digits), saturating at the `long` range. -/
def strtol10 (s : String) : Int :=
  match skipSpaces s.data with
  | '-' :: rest => max longMin (-(digitsValue rest 0 : Int))
  | '+' :: rest => min longMax (digitsValue rest 0 : Int)
  | cs => min longMax (digitsValue cs 0 : Int)

/-! ### File names built by the program -/

/-- Path of a depth raw dump: `depth/<pi_name>_depth_<frame_number>.raw`. -/
def depthRawPath (pi_name : String) (n : Nat) : String :=
  "depth/" ++ pi_name ++ "_depth_" ++ natDecimal n ++ ".raw"

/-- Path of a depth metadata file:
`depth_metadata/<pi_name>_depth_metadata_<frame_number>.txt`. -/
def depthMetaPath (pi_name : String) (n : Nat) : String :=
  "depth_metadata/" ++ pi_name ++ "_depth_metadata_" ++ natDecimal n ++ ".txt"

/-- Path of a colour png: `colour/<pi_name>_colour_<frame_number>.png`. -/
def colourPngPath (pi_name : String) (n : Nat) : String :=
  "colour/" ++ pi_name ++ "_colour_" ++ natDecimal n ++ ".png"

/-- Path of a colour metadata file:
`colour_metadata/<pi_name>_colour_metadata_<frame_number>.txt`. -/
def colourMetaPath (pi_name : String) (n : Nat) : String :=
  "colour_metadata/" ++ pi_name ++ "_colour_metadata_" ++ natDecimal n ++ ".txt"

/-! ### metadata_to_text (main.cpp lines 20-39) -/

/-- Body of the metadata loop: one CSV line per supported attribute index,
in enumeration order (the `for (i = 0; i < RS2_FRAME_METADATA_COUNT; i++)`
loop, here driven by the index list). -/
def metadataBody (env : Sdk) (frm : Frame) : List Nat → String
  | [] => ""
  | i :: rest =>
    (if frm.meta.supported i then
      env.metadataName i ++ "," ++ intDecimal (frm.meta.value i) ++ "\n"
    else "") ++ metadataBody env frm rest

/-- Translation of `metadata_to_text(frm, file_name)`: the produced file. -/
def metadata_to_text (env : Sdk) (frm : Frame) (file_name : String) : FileWrite :=
  ⟨file_name,
    FileContent.text
      ("Stream," ++ env.streamToString frm.stream ++ "\nMetadata Attribute,Value\n" ++
        metadataBody env frm (List.range env.metadataCount))⟩

/-! ### The two persistence functions (main.cpp lines 42-105) -/

/-- The depth filter chain exactly as configured and applied by
`save_frame_depth_data`: decimation with RS2_OPTION_FILTER_MAGNITUDE = 3,
then `disparity_transform(true)` (depth to disparity), then spatial filter
with RS2_OPTION_FILTER_SMOOTH_ALPHA = 0.6 (other options left at their
defaults), then `disparity_transform(false)` (disparity back to depth). -/
def filterChain (env : Sdk) (f : Frame) : Frame :=
  env.disparityTransform false
    (env.spatialProcess (3 / 5)
      (env.disparityTransform true
        (env.decimationProcess 3 f)))

/-- Translation of `save_frame_depth_data(pi_name, frame)`: returns the
files written and the stdout lines emitted. -/
def save_frame_depth_data (env : Sdk) (pi_name : String) (frame : Frame) :
    List FileWrite × List String :=
  let frame1 := env.decimationProcess 3 frame
  let frame2 := env.disparityTransform true frame1
  let frame3 := env.spatialProcess (3 / 5) frame2
  let frame4 := env.disparityTransform false frame3
  match frame4.video with
  | some image =>
    let file_name := depthRawPath pi_name frame4.frameNumber
    ([⟨file_name,
        FileContent.raw
          (image.buffer.take (image.width * image.height * image.bytesPerPixel))⟩,
      metadata_to_text env frame4 (depthMetaPath pi_name frame4.frameNumber)],
      ["Saved " ++ file_name])
  | none => ([], [])

/-- Translation of `save_frame_color_data(pi_name, frame)`. -/
def save_frame_color_data (env : Sdk) (pi_name : String) (frame : Frame) :
    List FileWrite × List String :=
  match frame.video with
  | some image =>
    let png_colour_file := colourPngPath pi_name frame.frameNumber
    ([⟨png_colour_file,
        FileContent.png image.width image.height image.bytesPerPixel
          image.buffer image.strideInBytes⟩,
      metadata_to_text env frame (colourMetaPath pi_name frame.frameNumber)],
      ["Saved " ++ png_colour_file])
  | none => ([], [])

/-! ### main (main.cpp lines 108-167) -/

/-- The stderr line printed by the `catch (const rs2::error&)` handler. -/
def rs2ErrorMessage (e : RsError) : String :=
  "RealSense error calling " ++ e.failedFunction ++ "(" ++ e.failedArgs ++ "):\n    " ++
    e.message

/-- The 30-iteration warm-up loop
(`for (auto i = 0; i < 30; ++i) pipe.wait_for_frames();`), starting at
wait index `k` with `r` iterations left.  An SDK error here unwinds to the
top-level catch (the `threads` vector is not yet in scope), so the caller
receives the error and the trace up to it. -/
def warmupLoop (inp : RunInput) : Nat → Nat → List Event →
    Except (RsError × List Event) (List Event)
  | _, 0, tr => Except.ok tr
  | k, r + 1, tr =>
    match inp.waitResult k with
    | Except.error e => Except.error (e, tr ++ [Event.waitFrames k])
    | Except.ok _ => warmupLoop inp (k + 1) r (tr ++ [Event.waitFrames k])

/-- The capture loop (`for (auto i = 0; i < num_frames; ++i)`), starting
at wait index `k` with `r` iterations left; `ws`, `os`, `tr`, `ds`
accumulate writes, stdout, trace and dispatched wait indices.  Each
iteration blocks on `wait_for_frames`, then spawns one depth and one
colour persistence task for the frameset.  If a wait throws while the
`threads` vector is non-empty, stack unwinding destroys joinable
`std::thread` objects, which calls `std::terminate` (C++ [thread.thread.destr])
before the catch handler can run; with the vector still empty the
exception reaches the top-level catch and the process exits with code 1.
Task effects are recorded in dispatch order (each task's effects are
deterministic; only their interleaving is not, and no recorded fact
depends on it). -/
def captureLoop (env : Sdk) (inp : RunInput) (raspi : String) :
    Nat → Nat → List FileWrite → List String → List Event → List Nat → RunResult
  | _, 0, ws, os, tr, ds =>
    { outcome := Outcome.exit 0, writes := ws, outLines := os, errLines := [],
      trace := tr, dispatched := ds }
  | k, r + 1, ws, os, tr, ds =>
    match inp.waitResult k with
    | Except.error e =>
      if ds = [] then
        { outcome := Outcome.exit 1, writes := ws, outLines := os,
          errLines := [rs2ErrorMessage e], trace := tr ++ [Event.waitFrames k],
          dispatched := ds }
      else
        { outcome := Outcome.terminated, writes := ws, outLines := os, errLines := [],
          trace := tr ++ [Event.waitFrames k], dispatched := ds }
    | Except.ok data =>
      let dres := save_frame_depth_data env raspi data.depthFrame
      let cres := save_frame_color_data env raspi data.colorFrame
      captureLoop env inp raspi (k + 1) r
        (ws ++ dres.1 ++ cres.1) (os ++ dres.2 ++ cres.2)
        (tr ++ [Event.waitFrames k, Event.dispatch RsStream.depth k,
          Event.dispatch RsStream.color k])
        (ds ++ [k])

/-- Translation of `main`.  Mirrors the statement order of the source:
query devices (exit 1 if none), enable the two streams, start the pipe
(an SDK error unwinds to the catch handler), read `argv[1]` through
`strtol` and `argv[2]` as the device label (each is a null pointer when
`argc` is too small — undefined behaviour, modelled as `Outcome.ub`),
run the 30-frameset warm-up, then the capture loop; `num_frames.toNat`
reflects that a negative `num_frames` makes the loop body run zero
times. -/
def mainRun (env : Sdk) (inp : RunInput) : RunResult :=
  if inp.deviceCount = 0 then
    { outcome := Outcome.exit 1, writes := [], outLines := [],
      errLines := ["No RealSense devices found!"],
      trace := [Event.queryDevices], dispatched := [] }
  else
    let tr0 : List Event :=
      [Event.queryDevices, Event.enableStream RsStream.depth,
        Event.enableStream RsStream.color, Event.startPipe]
    match inp.startResult with
    | some e =>
      { outcome := Outcome.exit 1, writes := [], outLines := [],
        errLines := [rs2ErrorMessage e], trace := tr0, dispatched := [] }
    | none =>
      match inp.argv1 with
      | none =>
        { outcome := Outcome.ub, writes := [], outLines := [], errLines := [],
          trace := tr0 ++ [Event.readArg 1], dispatched := [] }
      | some a1 =>
        let num_frames := strtol10 a1
        match inp.argv2 with
        | none =>
          { outcome := Outcome.ub, writes := [], outLines := [], errLines := [],
            trace := tr0 ++ [Event.readArg 1, Event.readArg 2], dispatched := [] }
        | some a2 =>
          let raspi_name := a2
          match warmupLoop inp 0 30 (tr0 ++ [Event.readArg 1, Event.readArg 2]) with
          | Except.error etr =>
            { outcome := Outcome.exit 1, writes := [], outLines := [],
              errLines := [rs2ErrorMessage etr.1], trace := etr.2, dispatched := [] }
          | Except.ok tr =>
            captureLoop env inp raspi_name 30 num_frames.toNat [] [] tr []

/-! ### Specification-side descriptions of the loop effects -/

/-- Files written by the capture loop from wait index `k` for `r`
iterations, when every wait succeeds and the k-th wait returns `fsf k`. -/
def loopWrites (env : Sdk) (raspi : String) (fsf : Nat → Frameset) :
    Nat → Nat → List FileWrite
  | _, 0 => []
  | k, r + 1 =>
    (save_frame_depth_data env raspi (fsf k).depthFrame).1 ++
      (save_frame_color_data env raspi (fsf k).colorFrame).1 ++
      loopWrites env raspi fsf (k + 1) r

/-- Stdout lines emitted by the capture loop under the same conditions. -/
def loopOut (env : Sdk) (raspi : String) (fsf : Nat → Frameset) :
    Nat → Nat → List String
  | _, 0 => []
  | k, r + 1 =>
    (save_frame_depth_data env raspi (fsf k).depthFrame).2 ++
      (save_frame_color_data env raspi (fsf k).colorFrame).2 ++
      loopOut env raspi fsf (k + 1) r

/-- Trace of the capture loop under the same conditions. -/
def loopTrace : Nat → Nat → List Event
  | _, 0 => []
  | k, r + 1 =>
    Event.waitFrames k :: Event.dispatch RsStream.depth k ::
      Event.dispatch RsStream.color k :: loopTrace (k + 1) r

/-- Wait indices dispatched by the capture loop: `k, k+1, ..., k+r-1`. -/
def loopDispatched : Nat → Nat → List Nat
  | _, 0 => []
  | k, r + 1 => k :: loopDispatched (k + 1) r

/-- Trace of `r` successful waits starting at index `k`. -/
def waitTrace : Nat → Nat → List Event
  | _, 0 => []
  | k, r + 1 => Event.waitFrames k :: waitTrace (k + 1) r

/-- Number of framesets among waits `k .. k+r-1` whose depth frame, after
the filter chain, is not image-shaped. -/
def depthSkipCount (env : Sdk) (fsf : Nat → Frameset) : Nat → Nat → Nat
  | _, 0 => 0
  | k, r + 1 =>
    (if (filterChain env (fsf k).depthFrame).video = none then 1 else 0) +
      depthSkipCount env fsf (k + 1) r

/-- Number of framesets among waits `k .. k+r-1` whose color frame is not
image-shaped. -/
def colorSkipCount (fsf : Nat → Frameset) : Nat → Nat → Nat
  | _, 0 => 0
  | k, r + 1 =>
    (if (fsf k).colorFrame.video = none then 1 else 0) + colorSkipCount fsf (k + 1) r

/-- Is this write a raw depth dump? -/
def isRawWrite (w : FileWrite) : Bool :=
  match w.content with
  | FileContent.raw _ => true
  | _ => false

/-- Is this write a png encode? -/
def isPngWrite (w : FileWrite) : Bool :=
  match w.content with
  | FileContent.png _ _ _ _ _ => true
  | _ => false

/-- A normal run: at least one device, `pipe.start` succeeds, both
arguments are present, `argv[1]` parses to frame count `n`, and every
wait up to warm-up plus `n` iterations returns the frameset `fsf k`. -/
def NormalRun (inp : RunInput) (a1 a2 : String) (fsf : Nat → Frameset) (n : Nat) : Prop :=
  inp.deviceCount ≠ 0 ∧ inp.startResult = none ∧ inp.argv1 = some a1 ∧
    inp.argv2 = some a2 ∧ (strtol10 a1).toNat = n ∧
    ∀ k, k < 30 + n → inp.waitResult k = Except.ok (fsf k)

/-! ### Characterisation of the loops on the all-waits-succeed path -/

theorem warmupLoop_ok (inp : RunInput) (fsf : Nat → Frameset) :
    ∀ (r k : Nat) (tr : List Event),
      (∀ i, i < r → inp.waitResult (k + i) = Except.ok (fsf (k + i))) →
      warmupLoop inp k r tr = Except.ok (tr ++ waitTrace k r) := by
  intro r
  induction r with
  | zero => intro k tr _; simp [warmupLoop, waitTrace]
  | succ r ih =>
    intro k tr hok
    have h0 : inp.waitResult k = Except.ok (fsf k) := by
      have := hok 0 (Nat.succ_pos r)
      simpa using this
    have hrest : ∀ i, i < r → inp.waitResult (k + 1 + i) = Except.ok (fsf (k + 1 + i)) := by
      intro i hi
      have := hok (i + 1) (by omega)
      have hshift : k + (i + 1) = k + 1 + i := by omega
      rwa [hshift] at this
    simp only [warmupLoop, h0]
    rw [ih (k + 1) (tr ++ [Event.waitFrames k]) hrest]
    simp [waitTrace, List.append_assoc]

theorem captureLoop_ok (env : Sdk) (inp : RunInput) (raspi : String)
    (fsf : Nat → Frameset) :
    ∀ (r k : Nat) (ws : List FileWrite) (os : List String) (tr : List Event)
      (ds : List Nat),
      (∀ i, i < r → inp.waitResult (k + i) = Except.ok (fsf (k + i))) →
      captureLoop env inp raspi k r ws os tr ds =
        { outcome := Outcome.exit 0,
          writes := ws ++ loopWrites env raspi fsf k r,
          outLines := os ++ loopOut env raspi fsf k r,
          errLines := [],
          trace := tr ++ loopTrace k r,
          dispatched := ds ++ loopDispatched k r } := by
  intro r
  induction r with
  | zero =>
    intro k ws os tr ds _
    simp [captureLoop, loopWrites, loopOut, loopTrace, loopDispatched]
  | succ r ih =>
    intro k ws os tr ds hok
    have h0 : inp.waitResult k = Except.ok (fsf k) := by
      have := hok 0 (Nat.succ_pos r)
      simpa using this
    have hrest : ∀ i, i < r → inp.waitResult (k + 1 + i) = Except.ok (fsf (k + 1 + i)) := by
      intro i hi
      have := hok (i + 1) (by omega)
      have hshift : k + (i + 1) = k + 1 + i := by omega
      rwa [hshift] at this
    simp only [captureLoop, h0]
    rw [ih (k + 1) _ _ _ _ hrest]
    simp [loopWrites, loopOut, loopTrace, loopDispatched, List.append_assoc]

/-- A normal run reaches the capture loop and ends with exit code 0; its
effects are exactly the warm-up waits followed by the loop effects. -/
theorem mainRun_normal (env : Sdk) (inp : RunInput) (a1 a2 : String)
    (fsf : Nat → Frameset) (n : Nat) (h : NormalRun inp a1 a2 fsf n) :
    mainRun env inp =
      { outcome := Outcome.exit 0,
        writes := loopWrites env a2 fsf 30 n,
        outLines := loopOut env a2 fsf 30 n,
        errLines := [],
        trace :=
          [Event.queryDevices, Event.enableStream RsStream.depth,
            Event.enableStream RsStream.color, Event.startPipe,
            Event.readArg 1, Event.readArg 2] ++ waitTrace 0 30 ++ loopTrace 30 n,
        dispatched := loopDispatched 30 n } := by
  obtain ⟨hdev, hstart, h1, h2, hn, hwait⟩ := h
  have hwarm : ∀ i, i < 30 → inp.waitResult (0 + i) = Except.ok (fsf (0 + i)) := by
    intro i hi
    exact hwait (0 + i) (by omega)
  have hloop : ∀ i, i < n → inp.waitResult (30 + i) = Except.ok (fsf (30 + i)) := by
    intro i hi
    exact hwait (30 + i) (by omega)
  unfold mainRun
  rw [if_neg hdev, hstart, h1, h2]
  dsimp only
  rw [warmupLoop_ok inp fsf 30 0 _ hwarm]
  dsimp only
  rw [hn, captureLoop_ok env inp a2 fsf n 30 [] [] _ [] hloop]
  simp

/-! ### Counting artifacts -/

theorem countRaw_save_depth (env : Sdk) (raspi : String) (f : Frame) :
    (save_frame_depth_data env raspi f).1.countP isRawWrite =
      if (filterChain env f).video = none then 0 else 1 := by
  cases h : (filterChain env f).video <;>
    simp [save_frame_depth_data, filterChain] at h ⊢ <;>
    simp [h, isRawWrite, metadata_to_text]

theorem countRaw_save_color (env : Sdk) (raspi : String) (f : Frame) :
    (save_frame_color_data env raspi f).1.countP isRawWrite = 0 := by
  cases h : f.video <;> simp [save_frame_color_data, h, isRawWrite, metadata_to_text]

theorem countPng_save_depth (env : Sdk) (raspi : String) (f : Frame) :
    (save_frame_depth_data env raspi f).1.countP isPngWrite = 0 := by
  cases h : (filterChain env f).video <;>
    simp [save_frame_depth_data, filterChain] at h ⊢ <;>
    simp [h, isPngWrite, metadata_to_text]

theorem countPng_save_color (env : Sdk) (raspi : String) (f : Frame) :
    (save_frame_color_data env raspi f).1.countP isPngWrite =
      if f.video = none then 0 else 1 := by
  cases h : f.video <;> simp [save_frame_color_data, h, isPngWrite, metadata_to_text]

theorem countRaw_loopWrites (env : Sdk) (raspi : String) (fsf : Nat → Frameset) :
    ∀ r k, (loopWrites env raspi fsf k r).countP isRawWrite +
      depthSkipCount env fsf k r = r := by
  intro r
  induction r with
  | zero => intro k; simp [loopWrites, depthSkipCount]
  | succ r ih =>
    intro k
    have hk := ih (k + 1)
    simp only [loopWrites, depthSkipCount, List.countP_append,
      countRaw_save_depth, countRaw_save_color]
    split_ifs <;> omega

theorem countPng_loopWrites (env : Sdk) (raspi : String) (fsf : Nat → Frameset) :
    ∀ r k, (loopWrites env raspi fsf k r).countP isPngWrite +
      colorSkipCount fsf k r = r := by
  intro r
  induction r with
  | zero => intro k; simp [loopWrites, colorSkipCount]
  | succ r ih =>
    intro k
    have hk := ih (k + 1)
    simp only [loopWrites, colorSkipCount, List.countP_append,
      countPng_save_depth, countPng_save_color]
    split_ifs <;> omega

/-- C1: In a normal run the number of depth artifacts written equals the
frame count minus the number of framesets whose depth frame (after the
filter chain) was not image-shaped, and symmetrically the number of
colour artifacts equals the frame count minus the number of framesets
whose colour frame was not image-shaped; the run exits with code 0, and
with frame count 0 nothing at all is written. -/
theorem artifact_counts (env : Sdk) (inp : RunInput) (a1 a2 : String)
    (fsf : Nat → Frameset) (n : Nat) (h : NormalRun inp a1 a2 fsf n) :
    (mainRun env inp).writes.countP isRawWrite = n - depthSkipCount env fsf 30 n ∧
    (mainRun env inp).writes.countP isPngWrite = n - colorSkipCount fsf 30 n ∧
    (mainRun env inp).outcome = Outcome.exit 0 ∧
    (n = 0 → (mainRun env inp).writes = []) := by
  rw [mainRun_normal env inp a1 a2 fsf n h]
  dsimp only
  have hraw := countRaw_loopWrites env a2 fsf n 30
  have hpng := countPng_loopWrites env a2 fsf n 30
  refine ⟨by omega, by omega, rfl, ?_⟩
  rintro rfl
  rfl

/-! ### Concrete fixtures used by the witnesses -/

/-- A metadata set supporting attributes 0 and 2 only. -/
def wMeta : MetaSet :=
  ⟨fun i => i = 0 || i = 2, fun i => Int.ofNat i - 1⟩

/-- A small concrete video payload. -/
def wVideo : VideoData :=
  ⟨4, 3, 2, 8, List.replicate 24 7⟩

/-- A concrete image-shaped depth frame. -/
def wDepthFrame : Frame :=
  ⟨5, RsStream.depth, wMeta, some wVideo⟩

/-- A concrete image-shaped colour frame. -/
def wColorFrame : Frame :=
  ⟨9, RsStream.color, wMeta, some wVideo⟩

/-- A concrete frameset. -/
def wFrameset : Frameset :=
  ⟨wDepthFrame, wColorFrame⟩

/-- A concrete SDK whose filters keep frames unchanged. -/
def wSdk : Sdk :=
  ⟨fun _ f => f, fun _ f => f, fun _ f => f,
    fun s => match s with | RsStream.depth => "Depth" | RsStream.color => "Color",
    3, fun i => "attr" ++ natDecimal i⟩

/-- A concrete healthy run input requesting 2 frames. -/
def wInput : RunInput :=
  ⟨1, some "2", some "pi", none, fun _ => Except.ok wFrameset⟩

/-- A concrete healthy run input requesting 0 frames. -/
def wInputZero : RunInput :=
  ⟨1, some "0", some "pi", none, fun _ => Except.ok wFrameset⟩

/-- Witness for C1: a healthy 2-frame run writes 2 raw depth dumps and
2 pngs and exits 0, and a healthy 0-frame run writes nothing and
exits 0. -/
theorem artifact_counts_witness :
    (mainRun wSdk wInput).writes.countP isRawWrite = 2 ∧
    (mainRun wSdk wInput).writes.countP isPngWrite = 2 ∧
    (mainRun wSdk wInput).outcome = Outcome.exit 0 ∧
    (mainRun wSdk wInputZero).writes = [] ∧
    (mainRun wSdk wInputZero).outcome = Outcome.exit 0 := by
  have h2 := artifact_counts wSdk wInput "2" "pi" (fun _ => wFrameset) 2
    ⟨by decide, rfl, rfl, rfl, by decide, fun k _ => rfl⟩
  have h0 := artifact_counts wSdk wInputZero "0" "pi" (fun _ => wFrameset) 0
    ⟨by decide, rfl, rfl, rfl, by decide, fun k _ => rfl⟩
  exact ⟨h2.1.trans (by decide), h2.2.1.trans (by decide), h2.2.2.1,
    h0.2.2.2 rfl, h0.2.2.1⟩

/-! ### Warm-up discarding (C3) -/

theorem mem_loopDispatched :
    ∀ (r k j : Nat), j ∈ loopDispatched k r ↔ k ≤ j ∧ j < k + r := by
  intro r
  induction r with
  | zero => intro k j; simp [loopDispatched]
  | succ r ih =>
    intro k j
    simp only [loopDispatched, List.mem_cons, ih (k + 1)]
    omega

theorem mem_waitTrace :
    ∀ (r k j : Nat), Event.waitFrames j ∈ waitTrace k r ↔ k ≤ j ∧ j < k + r := by
  intro r
  induction r with
  | zero => intro k j; simp [waitTrace]
  | succ r ih =>
    intro k j
    simp only [waitTrace, List.mem_cons, ih (k + 1), Event.waitFrames.injEq]
    omega

/-- C3: In a normal run the first 30 framesets are consumed (their wait
events appear in the trace) but never handed to a persistence task: the
dispatched wait indices are exactly 30, 31, ..., 29 + n, every dispatched
index is at least 30, no index below 30 is dispatched, and the files
written are exactly the capture-loop writes over framesets 30 onwards. -/
theorem warmup_framesets_never_persisted (env : Sdk) (inp : RunInput)
    (a1 a2 : String) (fsf : Nat → Frameset) (n : Nat)
    (h : NormalRun inp a1 a2 fsf n) :
    (mainRun env inp).dispatched = loopDispatched 30 n ∧
    (∀ j, j < 30 → Event.waitFrames j ∈ (mainRun env inp).trace) ∧
    (∀ j, j ∈ (mainRun env inp).dispatched → 30 ≤ j ∧ j < 30 + n) ∧
    (∀ j, j < 30 → j ∉ (mainRun env inp).dispatched) ∧
    (mainRun env inp).writes = loopWrites env a2 fsf 30 n := by
  rw [mainRun_normal env inp a1 a2 fsf n h]
  refine ⟨rfl, ?_, ?_, ?_, rfl⟩
  · intro j hj
    simp only [List.mem_append]
    exact Or.inl (Or.inr ((mem_waitTrace 30 0 j).2 (by omega)))
  · intro j hj
    exact (mem_loopDispatched n 30 j).1 hj
  · intro j hj hmem
    have := (mem_loopDispatched n 30 j).1 hmem
    omega

/-- Witness for C3: in the concrete healthy 2-frame run the dispatched
wait indices are exactly 30 and 31. -/
theorem warmup_framesets_never_persisted_witness :
    (mainRun wSdk wInput).dispatched = loopDispatched 30 2 ∧
    (∀ j, j < 30 → j ∉ (mainRun wSdk wInput).dispatched) := by
  have h := warmup_framesets_never_persisted wSdk wInput "2" "pi"
    (fun _ => wFrameset) 2 ⟨by decide, rfl, rfl, rfl, by decide, fun k _ => rfl⟩
  exact ⟨h.1, h.2.2.2.1⟩

/-! ### The filter chain and the skip policy (C4, C5) -/

/-- C4: `save_frame_depth_data` filters the depth frame by decimation with
magnitude 3, then conversion to the disparity domain, then spatial
smoothing with factor 0.6, then conversion back to the depth domain —
exactly `filterChain` — and everything it writes (the raw dump and the
metadata file) is derived from the result of that full chain; when the
chain result is not image-shaped nothing is written. -/
theorem depth_filter_chain_applied (env : Sdk) (pi_name : String) (f : Frame) :
    save_frame_depth_data env pi_name f =
      match (filterChain env f).video with
      | some image =>
        ([⟨depthRawPath pi_name (filterChain env f).frameNumber,
            FileContent.raw
              (image.buffer.take (image.width * image.height * image.bytesPerPixel))⟩,
          metadata_to_text env (filterChain env f)
            (depthMetaPath pi_name (filterChain env f).frameNumber)],
          ["Saved " ++ depthRawPath pi_name (filterChain env f).frameNumber])
      | none => ([], []) := rfl

/-- C5: a depth frame whose post-filter result is not image-shaped, and a
colour frame that is not image-shaped, are skipped silently: the
persistence functions return normally having written no file and printed
nothing. -/
theorem non_image_frame_skipped (env : Sdk) (pi_name : String) (f : Frame) :
    ((filterChain env f).video = none → save_frame_depth_data env pi_name f = ([], [])) ∧
    (f.video = none → save_frame_color_data env pi_name f = ([], [])) := by
  constructor
  · intro h
    unfold save_frame_depth_data
    dsimp only
    unfold filterChain at h
    rw [h]
  · intro h
    unfold save_frame_color_data
    rw [h]

/-- A frame that is not image-shaped, for the C5 witness. -/
def wNoVideoFrame : Frame :=
  ⟨7, RsStream.depth, wMeta, none⟩

/-- Witness for C5 at a concrete non-image frame. -/
theorem non_image_frame_skipped_witness :
    save_frame_depth_data wSdk "pi" wNoVideoFrame = ([], []) ∧
    save_frame_color_data wSdk "pi" wNoVideoFrame = ([], []) :=
  ⟨(non_image_frame_skipped wSdk "pi" wNoVideoFrame).1 rfl,
    (non_image_frame_skipped wSdk "pi" wNoVideoFrame).2 rfl⟩

/-! ### Metadata file format (C6) -/

/-- Concatenation of a list of strings (in order). -/
def concatAll : List String → String
  | [] => ""
  | s :: rest => s ++ concatAll rest

/-- The lines of a metadata file as the spec describes them: a two-line
header, then one CSV line per supported attribute kind, in enumeration
order, with unsupported kinds omitted. -/
def metadataLines (env : Sdk) (frm : Frame) : List String :=
  ["Stream," ++ env.streamToString frm.stream, "Metadata Attribute,Value"] ++
    ((List.range env.metadataCount).filter (fun i => frm.meta.supported i)).map
      (fun i => env.metadataName i ++ "," ++ intDecimal (frm.meta.value i))

theorem metadataBody_eq_concat (env : Sdk) (frm : Frame) :
    ∀ l : List Nat,
      metadataBody env frm l =
        concatAll ((l.filter (fun i => frm.meta.supported i)).map
          (fun i => env.metadataName i ++ "," ++ intDecimal (frm.meta.value i) ++ "\n")) := by
  intro l
  induction l with
  | nil => rfl
  | cons i rest ih =>
    cases hs : frm.meta.supported i <;>
      simp [metadataBody, List.filter_cons, hs, ih, concatAll]

/-- C6: `metadata_to_text` writes to the given path exactly the two-line
header (`Stream,<stream_type_name>` then `Metadata Attribute,Value`)
followed by one CSV line `<kind>,<value>` for each supported metadata
attribute kind, in the fixed enumeration's order, omitting unsupported
kinds entirely. -/
theorem metadata_file_format (env : Sdk) (frm : Frame) (file_name : String) :
    metadata_to_text env frm file_name =
      ⟨file_name,
        FileContent.text (concatAll ((metadataLines env frm).map (fun l => l ++ "\n")))⟩ := by
  unfold metadata_to_text metadataLines
  rw [metadataBody_eq_concat env frm (List.range env.metadataCount)]
  apply congrArg (fun c => FileWrite.mk file_name (FileContent.text c))
  simp only [List.map_append, List.map_cons, List.map_nil, concatAll]
  apply String.ext
  simp [String.data_append, List.append_assoc, Function.comp_def]

/-! ### Error paths of the loops -/

theorem warmupLoop_err (inp : RunInput) (fsf : Nat → Frameset) (e : RsError) :
    ∀ (j r k : Nat) (tr : List Event), j < r →
      (∀ i, i < j → inp.waitResult (k + i) = Except.ok (fsf (k + i))) →
      inp.waitResult (k + j) = Except.error e →
      warmupLoop inp k r tr =
        Except.error (e, tr ++ waitTrace k j ++ [Event.waitFrames (k + j)]) := by
  intro j
  induction j with
  | zero =>
    intro r k tr hjr hok herr
    cases r with
    | zero => omega
    | succ r2 =>
      rw [Nat.add_zero] at herr
      simp [warmupLoop, herr, waitTrace]
  | succ j ih =>
    intro r k tr hjr hok herr
    cases r with
    | zero => omega
    | succ r2 =>
      have h0 : inp.waitResult k = Except.ok (fsf k) := by
        simpa using hok 0 (by omega)
      have herr2 : inp.waitResult (k + 1 + j) = Except.error e := by
        have hshift : k + (j + 1) = k + 1 + j := by omega
        rwa [hshift] at herr
      have hok2 : ∀ i, i < j → inp.waitResult (k + 1 + i) = Except.ok (fsf (k + 1 + i)) := by
        intro i hi
        have := hok (i + 1) (by omega)
        have hshift : k + (i + 1) = k + 1 + i := by omega
        rwa [hshift] at this
      simp only [warmupLoop, h0]
      rw [ih r2 (k + 1) (tr ++ [Event.waitFrames k]) (by omega) hok2 herr2]
      have hshift : k + 1 + j = k + (j + 1) := by omega
      simp [waitTrace, List.append_assoc, hshift]

theorem captureLoop_err (env : Sdk) (inp : RunInput) (raspi : String)
    (fsf : Nat → Frameset) (e : RsError) :
    ∀ (j r k : Nat) (ws : List FileWrite) (os : List String) (tr : List Event)
      (ds : List Nat), j < r →
      (∀ i, i < j → inp.waitResult (k + i) = Except.ok (fsf (k + i))) →
      inp.waitResult (k + j) = Except.error e →
      captureLoop env inp raspi k r ws os tr ds =
        { outcome :=
            if ds ++ loopDispatched k j = [] then Outcome.exit 1 else Outcome.terminated,
          writes := ws ++ loopWrites env raspi fsf k j,
          outLines := os ++ loopOut env raspi fsf k j,
          errLines :=
            if ds ++ loopDispatched k j = [] then [rs2ErrorMessage e] else [],
          trace := tr ++ loopTrace k j ++ [Event.waitFrames (k + j)],
          dispatched := ds ++ loopDispatched k j } := by
  intro j
  induction j with
  | zero =>
    intro r k ws os tr ds hjr hok herr
    cases r with
    | zero => omega
    | succ r2 =>
      rw [Nat.add_zero] at herr
      simp only [captureLoop, herr, loopWrites, loopOut, loopTrace, loopDispatched,
        List.append_nil]
      split_ifs <;> rfl
  | succ j ih =>
    intro r k ws os tr ds hjr hok herr
    cases r with
    | zero => omega
    | succ r2 =>
      have h0 : inp.waitResult k = Except.ok (fsf k) := by
        simpa using hok 0 (by omega)
      have herr2 : inp.waitResult (k + 1 + j) = Except.error e := by
        have hshift : k + (j + 1) = k + 1 + j := by omega
        rwa [hshift] at herr
      have hok2 : ∀ i, i < j → inp.waitResult (k + 1 + i) = Except.ok (fsf (k + 1 + i)) := by
        intro i hi
        have := hok (i + 1) (by omega)
        have hshift : k + (i + 1) = k + 1 + i := by omega
        rwa [hshift] at this
      simp only [captureLoop, h0]
      rw [ih r2 (k + 1) _ _ _ _ (by omega) hok2 herr2]
      have hshift : k + 1 + j = k + (j + 1) := by omega
      simp [loopWrites, loopOut, loopTrace, loopDispatched, List.append_assoc, hshift]

theorem loopDispatched_nil_iff : ∀ k j, loopDispatched k j = [] ↔ j = 0 := by
  intro k j
  cases j <;> simp [loopDispatched]

/-- A run that fails with an SDK error during the warm-up waits unwinds
to the top-level catch and exits with code 1 (the thread vector is not
yet in scope). -/
theorem mainRun_warmup_err (env : Sdk) (inp : RunInput) (a1 a2 : String)
    (fsf : Nat → Frameset) (j : Nat) (e : RsError)
    (hdev : inp.deviceCount ≠ 0) (hstart : inp.startResult = none)
    (h1 : inp.argv1 = some a1) (h2 : inp.argv2 = some a2) (hj : j < 30)
    (hok : ∀ i, i < j → inp.waitResult i = Except.ok (fsf i))
    (herr : inp.waitResult j = Except.error e) :
    mainRun env inp =
      { outcome := Outcome.exit 1, writes := [], outLines := [],
        errLines := [rs2ErrorMessage e],
        trace :=
          [Event.queryDevices, Event.enableStream RsStream.depth,
            Event.enableStream RsStream.color, Event.startPipe,
            Event.readArg 1, Event.readArg 2] ++ waitTrace 0 j ++
            [Event.waitFrames j],
        dispatched := [] } := by
  unfold mainRun
  rw [if_neg hdev, hstart, h1, h2]
  dsimp only
  rw [warmupLoop_err inp fsf e j 30 0 _ hj
    (fun i hi => by simpa using hok i hi) (by simpa using herr)]
  dsimp only
  simp [List.append_assoc]

/-- A run that fails with an SDK error during a capture-loop wait: at the
first iteration (no thread yet spawned) the exception reaches the catch
and the process exits 1; at any later iteration the unwinding destroys
joinable threads and the process is terminated. -/
theorem mainRun_loop_err (env : Sdk) (inp : RunInput) (a1 a2 : String)
    (fsf : Nat → Frameset) (j : Nat) (e : RsError)
    (hdev : inp.deviceCount ≠ 0) (hstart : inp.startResult = none)
    (h1 : inp.argv1 = some a1) (h2 : inp.argv2 = some a2)
    (hj : j < (strtol10 a1).toNat)
    (hok : ∀ k, k < 30 + j → inp.waitResult k = Except.ok (fsf k))
    (herr : inp.waitResult (30 + j) = Except.error e) :
    mainRun env inp =
      { outcome := if j = 0 then Outcome.exit 1 else Outcome.terminated,
        writes := loopWrites env a2 fsf 30 j,
        outLines := loopOut env a2 fsf 30 j,
        errLines := if j = 0 then [rs2ErrorMessage e] else [],
        trace :=
          [Event.queryDevices, Event.enableStream RsStream.depth,
            Event.enableStream RsStream.color, Event.startPipe,
            Event.readArg 1, Event.readArg 2] ++ waitTrace 0 30 ++
            loopTrace 30 j ++ [Event.waitFrames (30 + j)],
        dispatched := loopDispatched 30 j } := by
  unfold mainRun
  rw [if_neg hdev, hstart, h1, h2]
  dsimp only
  rw [warmupLoop_ok inp fsf 30 0 _ (fun i hi => hok (0 + i) (by omega))]
  dsimp only
  rw [captureLoop_err env inp a2 fsf e j (strtol10 a1).toNat 30 [] [] _ [] hj
    (fun i hi => hok (30 + i) (by omega)) herr]
  simp [loopDispatched_nil_iff, List.append_assoc]

/-! ### Exit-code policy (C2) -/

/-- A concrete SDK error. -/
def wErr : RsError :=
  ⟨"wait_for_frames", "", "frame timeout"⟩

/-- A run whose second capture-loop wait (index 31) raises an SDK error,
after the first frameset has already been dispatched to two tasks. -/
def wInputAcqErr : RunInput :=
  ⟨1, some "2", some "pi", none,
    fun k => if k = 31 then Except.error wErr else Except.ok wFrameset⟩

/-- C2 counterexample: an SDK error raised during acquisition after a
persistence task has been dispatched does not lead to exit code 1 — the
`threads` vector still holds joinable threads when the exception unwinds
the stack, so `std::terminate` is called and the catch handler never
runs (no message is printed either). -/
theorem acquisition_error_after_dispatch_not_exit1 :
    (mainRun wSdk wInputAcqErr).outcome = Outcome.terminated ∧
    (mainRun wSdk wInputAcqErr).outcome ≠ Outcome.exit 1 ∧
    (mainRun wSdk wInputAcqErr).errLines = [] := by
  refine ⟨?_, ?_, ?_⟩ <;> decide

/-- C2 amended: `main` returns exit code 0 on full completion; it returns
exit code 1 with a human-readable message on the error stream when zero
devices are present, when the SDK raises an error while starting the
pipeline, during a warm-up wait, or at the first capture-loop wait (no
task dispatched yet); but an SDK error raised during acquisition after at
least one persistence task has been dispatched terminates the process
(`std::terminate` from destroying a joinable thread during unwinding)
instead of returning exit code 1. -/
theorem exit_code_policy (env : Sdk) (inp : RunInput) :
    (inp.deviceCount = 0 →
      (mainRun env inp).outcome = Outcome.exit 1 ∧
      (mainRun env inp).errLines = ["No RealSense devices found!"]) ∧
    (∀ e, inp.deviceCount ≠ 0 → inp.startResult = some e →
      (mainRun env inp).outcome = Outcome.exit 1 ∧
      (mainRun env inp).errLines = [rs2ErrorMessage e]) ∧
    (∀ (a1 a2 : String) (fsf : Nat → Frameset) (n : Nat), NormalRun inp a1 a2 fsf n →
      (mainRun env inp).outcome = Outcome.exit 0 ∧
      (mainRun env inp).errLines = []) ∧
    (∀ (a1 a2 : String) (fsf : Nat → Frameset) (j : Nat) (e : RsError),
      inp.deviceCount ≠ 0 → inp.startResult = none →
      inp.argv1 = some a1 → inp.argv2 = some a2 → j < 30 →
      (∀ i, i < j → inp.waitResult i = Except.ok (fsf i)) →
      inp.waitResult j = Except.error e →
      (mainRun env inp).outcome = Outcome.exit 1 ∧
      (mainRun env inp).errLines = [rs2ErrorMessage e]) ∧
    (∀ (a1 a2 : String) (fsf : Nat → Frameset) (e : RsError),
      inp.deviceCount ≠ 0 → inp.startResult = none →
      inp.argv1 = some a1 → inp.argv2 = some a2 → 0 < (strtol10 a1).toNat →
      (∀ k, k < 30 → inp.waitResult k = Except.ok (fsf k)) →
      inp.waitResult 30 = Except.error e →
      (mainRun env inp).outcome = Outcome.exit 1 ∧
      (mainRun env inp).errLines = [rs2ErrorMessage e]) ∧
    (∀ (a1 a2 : String) (fsf : Nat → Frameset) (j : Nat) (e : RsError),
      inp.deviceCount ≠ 0 → inp.startResult = none →
      inp.argv1 = some a1 → inp.argv2 = some a2 → 0 < j →
      j < (strtol10 a1).toNat →
      (∀ k, k < 30 + j → inp.waitResult k = Except.ok (fsf k)) →
      inp.waitResult (30 + j) = Except.error e →
      (mainRun env inp).outcome = Outcome.terminated ∧
      (mainRun env inp).errLines = []) := by
  refine ⟨?_, ?_, ?_, ?_, ?_, ?_⟩
  · intro h0
    unfold mainRun
    rw [if_pos h0]
    exact ⟨rfl, rfl⟩
  · intro e hdev hse
    unfold mainRun
    rw [if_neg hdev, hse]
    exact ⟨rfl, rfl⟩
  · intro a1 a2 fsf n hn
    rw [mainRun_normal env inp a1 a2 fsf n hn]
    exact ⟨rfl, rfl⟩
  · intro a1 a2 fsf j e hdev hstart h1 h2 hj hok herr
    rw [mainRun_warmup_err env inp a1 a2 fsf j e hdev hstart h1 h2 hj hok herr]
    exact ⟨rfl, rfl⟩
  · intro a1 a2 fsf e hdev hstart h1 h2 hpos hok herr
    rw [mainRun_loop_err env inp a1 a2 fsf 0 e hdev hstart h1 h2 hpos
      (fun k hk => hok k (by omega)) (by simpa using herr)]
    exact ⟨rfl, rfl⟩
  · intro a1 a2 fsf j e hdev hstart h1 h2 hjpos hj hok herr
    rw [mainRun_loop_err env inp a1 a2 fsf j e hdev hstart h1 h2 hj hok herr]
    constructor
    · simp [Nat.pos_iff_ne_zero.mp hjpos]
    · simp [Nat.pos_iff_ne_zero.mp hjpos]

/-- A run with no device connected. -/
def wInputNoDev : RunInput :=
  ⟨0, some "2", some "pi", none, fun _ => Except.ok wFrameset⟩

/-- A run where `pipe.start` raises an SDK error. -/
def wInputStartErr : RunInput :=
  ⟨1, some "2", some "pi", some wErr, fun _ => Except.ok wFrameset⟩

/-- A run whose fourth warm-up wait (index 3) raises an SDK error. -/
def wInputWarmErr : RunInput :=
  ⟨1, some "2", some "pi", none,
    fun k => if k = 3 then Except.error wErr else Except.ok wFrameset⟩

/-- A run whose first capture-loop wait (index 30) raises an SDK error. -/
def wInputAcq0Err : RunInput :=
  ⟨1, some "2", some "pi", none,
    fun k => if k = 30 then Except.error wErr else Except.ok wFrameset⟩

/-- Witness for C2: every case of the exit-code policy at a concrete
input — no device, start error, full completion, warm-up error,
first-iteration acquisition error, later acquisition error. -/
theorem exit_code_policy_witness :
    (mainRun wSdk wInputNoDev).outcome = Outcome.exit 1 ∧
    (mainRun wSdk wInputStartErr).outcome = Outcome.exit 1 ∧
    (mainRun wSdk wInput).outcome = Outcome.exit 0 ∧
    (mainRun wSdk wInputWarmErr).outcome = Outcome.exit 1 ∧
    (mainRun wSdk wInputAcq0Err).outcome = Outcome.exit 1 ∧
    (mainRun wSdk wInputAcqErr).outcome = Outcome.terminated := by
  refine ⟨((exit_code_policy wSdk wInputNoDev).1 rfl).1,
    ((exit_code_policy wSdk wInputStartErr).2.1 wErr (by decide) rfl).1,
    ((exit_code_policy wSdk wInput).2.2.1 "2" "pi" (fun _ => wFrameset) 2
      ⟨by decide, rfl, rfl, rfl, by decide, fun k _ => rfl⟩).1,
    ((exit_code_policy wSdk wInputWarmErr).2.2.2.1 "2" "pi" (fun _ => wFrameset) 3 wErr
      (by decide) rfl rfl rfl (by omega)
      (fun i hi => by
        have hne : i ≠ 3 := by omega
        simp [wInputWarmErr, hne])
      rfl).1,
    ((exit_code_policy wSdk wInputAcq0Err).2.2.2.2.1 "2" "pi" (fun _ => wFrameset) wErr
      (by decide) rfl rfl rfl (by decide)
      (fun k hk => by
        have hne : k ≠ 30 := by omega
        simp [wInputAcq0Err, hne])
      rfl).1,
    ((exit_code_policy wSdk wInputAcqErr).2.2.2.2.2 "2" "pi" (fun _ => wFrameset) 1 wErr
      (by decide) rfl rfl rfl (by omega) (by decide)
      (fun k hk => by
        have hne : k ≠ 31 := by omega
        simp [wInputAcqErr, hne])
      rfl).1⟩

/-! ### Argument handling (C8, C9, C10) -/

/-- A run invoked with a malformed frame-count argument. -/
def wInputBadArg : RunInput :=
  ⟨1, some "abc", some "pi", none, fun _ => Except.ok wFrameset⟩

/-- C8 counterexample: with `argv[1] = "abc"` (malformed, no digit
prefix) the program does not treat the run as an error: `strtol` yields
0, the capture loop runs zero times, nothing is written, no message is
printed, and the process exits with code 0. -/
theorem malformed_frame_count_not_an_error :
    (mainRun wSdk wInputBadArg).outcome = Outcome.exit 0 ∧
    (mainRun wSdk wInputBadArg).errLines = [] ∧
    (mainRun wSdk wInputBadArg).writes = [] ∧
    strtol10 "abc" = 0 := by
  refine ⟨?_, ?_, ?_, ?_⟩ <;> decide

/-- C8 amended: the frame-count argument is not validated.  A value whose
`strtol` parse yields 0 (in particular any string with no leading digits)
is silently treated as a request for zero frames: the run proceeds
normally and exits with code 0, writing nothing.  An absent argument is
not a clean error either: the program dereferences the null `argv` entry
(undefined behaviour) after the pipeline has started. -/
theorem frame_count_not_validated (env : Sdk) (inp : RunInput) :
    (∀ (a1 a2 : String) (fsf : Nat → Frameset),
      inp.deviceCount ≠ 0 → inp.startResult = none →
      inp.argv1 = some a1 → inp.argv2 = some a2 → strtol10 a1 = 0 →
      (∀ k, k < 30 → inp.waitResult k = Except.ok (fsf k)) →
      (mainRun env inp).outcome = Outcome.exit 0 ∧
      (mainRun env inp).writes = [] ∧
      (mainRun env inp).errLines = []) ∧
    (inp.deviceCount ≠ 0 → inp.startResult = none → inp.argv1 = none →
      (mainRun env inp).outcome = Outcome.ub ∧
      (mainRun env inp).errLines = []) := by
  constructor
  · intro a1 a2 fsf hdev hstart h1 h2 hz hok
    have hnr : NormalRun inp a1 a2 fsf 0 :=
      ⟨hdev, hstart, h1, h2, by rw [hz]; rfl, fun k hk => hok k (by omega)⟩
    rw [mainRun_normal env inp a1 a2 fsf 0 hnr]
    exact ⟨rfl, rfl, rfl⟩
  · intro hdev hstart h1
    unfold mainRun
    rw [if_neg hdev, hstart, h1]
    exact ⟨rfl, rfl⟩

/-- Witness for C8 amended: the malformed-argument run and the
missing-argument run, concretely. -/
theorem frame_count_not_validated_witness :
    (mainRun wSdk wInputBadArg).outcome = Outcome.exit 0 ∧
    (mainRun wSdk (RunInput.mk 1 none none none (fun _ => Except.ok wFrameset))).outcome =
      Outcome.ub := by
  refine ⟨((frame_count_not_validated wSdk wInputBadArg).1 "abc" "pi"
      (fun _ => wFrameset) (by decide) rfl rfl rfl (by decide) (fun k _ => rfl)).1,
    ((frame_count_not_validated wSdk
      (RunInput.mk 1 none none none (fun _ => Except.ok wFrameset))).2
      (by decide) rfl rfl).1⟩

/-- C9: for every parsed frame count at most 0 (negative values included)
the capture loop executes zero iterations: no persistence task is
dispatched, nothing is written or printed, and the process exits with
code 0 (the warm-up still runs, hence the warm-up wait hypothesis). -/
theorem nonpositive_frame_count_zero_iterations (env : Sdk) (inp : RunInput)
    (a1 a2 : String) (fsf : Nat → Frameset)
    (hdev : inp.deviceCount ≠ 0) (hstart : inp.startResult = none)
    (h1 : inp.argv1 = some a1) (h2 : inp.argv2 = some a2)
    (hle : strtol10 a1 ≤ 0)
    (hok : ∀ k, k < 30 → inp.waitResult k = Except.ok (fsf k)) :
    (mainRun env inp).outcome = Outcome.exit 0 ∧
    (mainRun env inp).writes = [] ∧
    (mainRun env inp).outLines = [] ∧
    (mainRun env inp).dispatched = [] := by
  have hnr : NormalRun inp a1 a2 fsf 0 :=
    ⟨hdev, hstart, h1, h2, Int.toNat_eq_zero.mpr hle, fun k hk => hok k (by omega)⟩
  rw [mainRun_normal env inp a1 a2 fsf 0 hnr]
  exact ⟨rfl, rfl, rfl, rfl⟩

/-- A run invoked with a negative frame-count argument. -/
def wInputNegArg : RunInput :=
  ⟨1, some "-5", some "pi", none, fun _ => Except.ok wFrameset⟩

/-- Witness for C9 at frame count -5. -/
theorem nonpositive_frame_count_zero_iterations_witness :
    (mainRun wSdk wInputNegArg).outcome = Outcome.exit 0 ∧
    (mainRun wSdk wInputNegArg).writes = [] ∧
    (mainRun wSdk wInputNegArg).dispatched = [] := by
  have h := nonpositive_frame_count_zero_iterations wSdk wInputNegArg "-5" "pi"
    (fun _ => wFrameset) (by decide) rfl rfl rfl (by decide) (fun k _ => rfl)
  exact ⟨h.1, h.2.1, h.2.2.2⟩

/-- C10: when the device check and pipeline start succeed, the program
reads `argv[1]` and `argv[2]` with no argument-count check, and only
after the pipeline has been started (the trace places `startPipe` before
every `readArg`); with fewer than two arguments the run reaches the
unguarded null-pointer access (undefined behaviour) instead of the
exit-code-1 error path. -/
theorem missing_args_unguarded (env : Sdk) (inp : RunInput)
    (hdev : inp.deviceCount ≠ 0) (hstart : inp.startResult = none) :
    (inp.argv1 = none →
      mainRun env inp =
        { outcome := Outcome.ub, writes := [], outLines := [], errLines := [],
          trace :=
            [Event.queryDevices, Event.enableStream RsStream.depth,
              Event.enableStream RsStream.color, Event.startPipe] ++
              [Event.readArg 1],
          dispatched := [] } ∧
      (mainRun env inp).outcome ≠ Outcome.exit 1) ∧
    (∀ a1 : String, inp.argv1 = some a1 → inp.argv2 = none →
      mainRun env inp =
        { outcome := Outcome.ub, writes := [], outLines := [], errLines := [],
          trace :=
            [Event.queryDevices, Event.enableStream RsStream.depth,
              Event.enableStream RsStream.color, Event.startPipe] ++
              [Event.readArg 1, Event.readArg 2],
          dispatched := [] } ∧
      (mainRun env inp).outcome ≠ Outcome.exit 1) := by
  constructor
  · intro h1
    have hm : mainRun env inp =
        { outcome := Outcome.ub, writes := [], outLines := [], errLines := [],
          trace :=
            [Event.queryDevices, Event.enableStream RsStream.depth,
              Event.enableStream RsStream.color, Event.startPipe] ++
              [Event.readArg 1],
          dispatched := [] } := by
      unfold mainRun
      rw [if_neg hdev, hstart, h1]
    exact ⟨hm, by rw [hm]; decide⟩
  · intro a1 h1 h2
    have hm : mainRun env inp =
        { outcome := Outcome.ub, writes := [], outLines := [], errLines := [],
          trace :=
            [Event.queryDevices, Event.enableStream RsStream.depth,
              Event.enableStream RsStream.color, Event.startPipe] ++
              [Event.readArg 1, Event.readArg 2],
          dispatched := [] } := by
      unfold mainRun
      rw [if_neg hdev, hstart, h1, h2]
    exact ⟨hm, by rw [hm]; decide⟩

/-- Witness for C10: concrete runs invoked with zero and with one
argument, both reaching the unguarded access after the pipeline start. -/
theorem missing_args_unguarded_witness :
    (mainRun wSdk (RunInput.mk 1 none none none (fun _ => Except.ok wFrameset))).outcome =
      Outcome.ub ∧
    (mainRun wSdk
      (RunInput.mk 1 (some "2") none none (fun _ => Except.ok wFrameset))).outcome =
      Outcome.ub := by
  refine ⟨?_, ?_⟩
  · have h := (missing_args_unguarded wSdk
      (RunInput.mk 1 none none none (fun _ => Except.ok wFrameset))
      (by decide) rfl).1 rfl
    rw [h.1]
  · have h := (missing_args_unguarded wSdk
      (RunInput.mk 1 (some "2") none none (fun _ => Except.ok wFrameset))
      (by decide) rfl).2 "2" rfl rfl
    rw [h.1]

/-! ### Injectivity of the file names (towards C7) -/

theorem natDecimalAux_eq_digits :
    ∀ fuel n, n ≤ fuel →
      natDecimalAux fuel n = ((Nat.digits 10 n).map Nat.digitChar).reverse := by
  intro fuel
  induction fuel with
  | zero =>
    intro n hn
    have hn0 : n = 0 := by omega
    subst hn0
    simp [natDecimalAux]
  | succ fuel ih =>
    intro n hn
    by_cases h0 : n = 0
    · subst h0
      simp [natDecimalAux]
    · have hdiv : n / 10 < n := Nat.div_lt_self (by omega) (by omega)
      have hdig := Nat.digits_def' (b := 10) (by norm_num) (Nat.pos_of_ne_zero h0)
      rw [natDecimalAux, if_neg h0, ih (n / 10) (by omega), hdig]
      simp

theorem digitChar_inj_lt :
    ∀ a, a < 10 → ∀ b, b < 10 → Nat.digitChar a = Nat.digitChar b → a = b := by
  decide

theorem map_digitChar_inj :
    ∀ l1 l2 : List Nat, (∀ d, d ∈ l1 → d < 10) → (∀ d, d ∈ l2 → d < 10) →
      l1.map Nat.digitChar = l2.map Nat.digitChar → l1 = l2 := by
  intro l1
  induction l1 with
  | nil =>
    intro l2 _ _ h
    cases l2 with
    | nil => rfl
    | cons b bs => simp at h
  | cons a as ih =>
    intro l2 hb1 hb2 h
    cases l2 with
    | nil => simp at h
    | cons b bs =>
      simp only [List.map_cons, List.cons.injEq] at h
      have ha : a = b :=
        digitChar_inj_lt a (hb1 a (by simp)) b (hb2 b (by simp)) h.1
      have hrest := ih bs (fun d hd => hb1 d (by simp [hd]))
        (fun d hd => hb2 d (by simp [hd])) h.2
      rw [ha, hrest]

theorem natDecimal_inj {n m : Nat} (h : natDecimal n = natDecimal m) : n = m := by
  unfold natDecimal at h
  by_cases hn : n = 0 <;> by_cases hm : m = 0
  · omega
  · exfalso
    rw [if_pos hn, if_neg hm,
      natDecimalAux_eq_digits m m (le_refl m)] at h
    have h2 : ['0'] = ((Nat.digits 10 m).map Nat.digitChar).reverse :=
      List.asString_inj.mp h
    have h3 : (Nat.digits 10 m).map Nat.digitChar = ['0'] := by
      have := congrArg List.reverse h2
      simpa using this.symm
    have h4 : Nat.digits 10 m = [0] := by
      apply map_digitChar_inj
      · intro d hd
        exact Nat.digits_lt_base (by norm_num) hd
      · intro d hd
        simp at hd
        omega
      · rw [h3]
        rfl
    have h5 := Nat.ofDigits_digits 10 m
    rw [h4] at h5
    simp [Nat.ofDigits] at h5
    omega
  · exfalso
    rw [if_pos hm, if_neg hn,
      natDecimalAux_eq_digits n n (le_refl n)] at h
    have h2 : ((Nat.digits 10 n).map Nat.digitChar).reverse = ['0'] :=
      List.asString_inj.mp h
    have h3 : (Nat.digits 10 n).map Nat.digitChar = ['0'] := by
      have := congrArg List.reverse h2
      simpa using this
    have h4 : Nat.digits 10 n = [0] := by
      apply map_digitChar_inj
      · intro d hd
        exact Nat.digits_lt_base (by norm_num) hd
      · intro d hd
        simp at hd
        omega
      · rw [h3]
        rfl
    have h5 := Nat.ofDigits_digits 10 n
    rw [h4] at h5
    simp [Nat.ofDigits] at h5
    omega
  · rw [if_neg hn, if_neg hm, natDecimalAux_eq_digits n n (le_refl n),
      natDecimalAux_eq_digits m m (le_refl m)] at h
    have h2 := List.asString_inj.mp h
    have h3 := congrArg List.reverse h2
    simp only [List.reverse_reverse] at h3
    have h4 : Nat.digits 10 n = Nat.digits 10 m := by
      apply map_digitChar_inj
      · intro d hd
        exact Nat.digits_lt_base (by norm_num) hd
      · intro d hd
        exact Nat.digits_lt_base (by norm_num) hd
      · exact h3
    exact Nat.digits_inj_iff.mp h4

theorem natDecimal_data_inj {n m : Nat}
    (h : (natDecimal n).data = (natDecimal m).data) : n = m :=
  natDecimal_inj (String.ext h)

theorem depthRawPath_inj (pi_name : String) {n m : Nat}
    (h : depthRawPath pi_name n = depthRawPath pi_name m) : n = m := by
  unfold depthRawPath at h
  have hd := congrArg String.data h
  simp only [String.data_append] at hd
  exact natDecimal_data_inj (List.append_cancel_left (List.append_cancel_right hd))

theorem depthMetaPath_inj (pi_name : String) {n m : Nat}
    (h : depthMetaPath pi_name n = depthMetaPath pi_name m) : n = m := by
  unfold depthMetaPath at h
  have hd := congrArg String.data h
  simp only [String.data_append] at hd
  exact natDecimal_data_inj (List.append_cancel_left (List.append_cancel_right hd))

theorem colourPngPath_inj (pi_name : String) {n m : Nat}
    (h : colourPngPath pi_name n = colourPngPath pi_name m) : n = m := by
  unfold colourPngPath at h
  have hd := congrArg String.data h
  simp only [String.data_append] at hd
  exact natDecimal_data_inj (List.append_cancel_left (List.append_cancel_right hd))

theorem colourMetaPath_inj (pi_name : String) {n m : Nat}
    (h : colourMetaPath pi_name n = colourMetaPath pi_name m) : n = m := by
  unfold colourMetaPath at h
  have hd := congrArg String.data h
  simp only [String.data_append] at hd
  exact natDecimal_data_inj (List.append_cancel_left (List.append_cancel_right hd))

/-- Directory part of a path: the characters before the first slash.  The
four artifact families are written to four distinct directories, so this
discriminates them regardless of the device label and frame number. -/
def dirOf (s : String) : List Char :=
  s.data.takeWhile (fun c => c != '/')

theorem dirOf_depthRawPath (pi_name : String) (n : Nat) :
    dirOf (depthRawPath pi_name n) = ['d', 'e', 'p', 't', 'h'] := rfl

theorem dirOf_depthMetaPath (pi_name : String) (n : Nat) :
    dirOf (depthMetaPath pi_name n) =
      ['d', 'e', 'p', 't', 'h', '_', 'm', 'e', 't', 'a', 'd', 'a', 't', 'a'] := rfl

theorem dirOf_colourPngPath (pi_name : String) (n : Nat) :
    dirOf (colourPngPath pi_name n) = ['c', 'o', 'l', 'o', 'u', 'r'] := rfl

theorem dirOf_colourMetaPath (pi_name : String) (n : Nat) :
    dirOf (colourMetaPath pi_name n) =
      ['c', 'o', 'l', 'o', 'u', 'r', '_', 'm', 'e', 't', 'a', 'd', 'a', 't', 'a'] := rfl

theorem depthRaw_ne_depthMeta (p q : String) (n m : Nat) :
    depthRawPath p n ≠ depthMetaPath q m := by
  intro h
  have h2 := congrArg dirOf h
  rw [dirOf_depthRawPath, dirOf_depthMetaPath] at h2
  exact absurd h2 (by decide)

theorem depthRaw_ne_colourPng (p q : String) (n m : Nat) :
    depthRawPath p n ≠ colourPngPath q m := by
  intro h
  have h2 := congrArg dirOf h
  rw [dirOf_depthRawPath, dirOf_colourPngPath] at h2
  exact absurd h2 (by decide)

theorem depthRaw_ne_colourMeta (p q : String) (n m : Nat) :
    depthRawPath p n ≠ colourMetaPath q m := by
  intro h
  have h2 := congrArg dirOf h
  rw [dirOf_depthRawPath, dirOf_colourMetaPath] at h2
  exact absurd h2 (by decide)

theorem depthMeta_ne_colourPng (p q : String) (n m : Nat) :
    depthMetaPath p n ≠ colourPngPath q m := by
  intro h
  have h2 := congrArg dirOf h
  rw [dirOf_depthMetaPath, dirOf_colourPngPath] at h2
  exact absurd h2 (by decide)

theorem depthMeta_ne_colourMeta (p q : String) (n m : Nat) :
    depthMetaPath p n ≠ colourMetaPath q m := by
  intro h
  have h2 := congrArg dirOf h
  rw [dirOf_depthMetaPath, dirOf_colourMetaPath] at h2
  exact absurd h2 (by decide)

theorem colourPng_ne_colourMeta (p q : String) (n m : Nat) :
    colourPngPath p n ≠ colourMetaPath q m := by
  intro h
  have h2 := congrArg dirOf h
  rw [dirOf_colourPngPath, dirOf_colourMetaPath] at h2
  exact absurd h2 (by decide)

/-! ### Uniqueness of artifact names in a run (C7) -/

/-- Frame number used by the depth artifacts of wait `k`: the number of
the post-filter depth frame. -/
def depthNum (env : Sdk) (fsf : Nat → Frameset) (k : Nat) : Nat :=
  (filterChain env (fsf k).depthFrame).frameNumber

/-- Frame number used by the colour artifacts of wait `k`. -/
def colorNum (fsf : Nat → Frameset) (k : Nat) : Nat :=
  (fsf k).colorFrame.frameNumber

/-- Paths written by the two persistence tasks of wait `k`. -/
def iterPaths (env : Sdk) (raspi : String) (fsf : Nat → Frameset) (k : Nat) :
    List String :=
  ((save_frame_depth_data env raspi (fsf k).depthFrame).1 ++
    (save_frame_color_data env raspi (fsf k).colorFrame).1).map (fun w => w.path)

theorem save_depth_paths (env : Sdk) (raspi : String) (f : Frame) :
    (save_frame_depth_data env raspi f).1.map (fun w => w.path) =
      if (filterChain env f).video = none then []
      else
        [depthRawPath raspi (filterChain env f).frameNumber,
          depthMetaPath raspi (filterChain env f).frameNumber] := by
  unfold save_frame_depth_data filterChain
  dsimp only
  cases hv :
    (env.disparityTransform false
      (env.spatialProcess (3 / 5)
        (env.disparityTransform true (env.decimationProcess 3 f)))).video <;>
    simp [hv, metadata_to_text]

theorem save_color_paths (env : Sdk) (raspi : String) (f : Frame) :
    (save_frame_color_data env raspi f).1.map (fun w => w.path) =
      if f.video = none then []
      else [colourPngPath raspi f.frameNumber, colourMetaPath raspi f.frameNumber] := by
  unfold save_frame_color_data
  cases hv : f.video <;> simp [hv, metadata_to_text]

theorem iterPaths_mem (env : Sdk) (raspi : String) (fsf : Nat → Frameset)
    (k : Nat) (p : String) (hp : p ∈ iterPaths env raspi fsf k) :
    (p = depthRawPath raspi (depthNum env fsf k) ∨
      p = depthMetaPath raspi (depthNum env fsf k)) ∨
    (p = colourPngPath raspi (colorNum fsf k) ∨
      p = colourMetaPath raspi (colorNum fsf k)) := by
  unfold iterPaths at hp
  rw [List.map_append, save_depth_paths, save_color_paths] at hp
  rw [List.mem_append] at hp
  unfold depthNum colorNum
  rcases hp with hp | hp
  · left
    split_ifs at hp <;> simp at hp <;> tauto
  · right
    split_ifs at hp <;> simp at hp <;> tauto

theorem iterPaths_pairwise (env : Sdk) (raspi : String) (fsf : Nat → Frameset)
    (k : Nat) :
    (iterPaths env raspi fsf k).Pairwise (fun p q => p ≠ q) := by
  unfold iterPaths
  rw [List.map_append, save_depth_paths, save_color_paths]
  split_ifs <;>
    simp [List.pairwise_cons, List.Pairwise.nil, depthRaw_ne_depthMeta,
      depthRaw_ne_colourPng, depthRaw_ne_colourMeta, depthMeta_ne_colourPng,
      depthMeta_ne_colourMeta, colourPng_ne_colourMeta]

theorem iterPaths_cross (env : Sdk) (raspi : String) (fsf : Nat → Frameset)
    (k1 k2 : Nat) (p q : String)
    (hdne : depthNum env fsf k1 ≠ depthNum env fsf k2)
    (hcne : colorNum fsf k1 ≠ colorNum fsf k2)
    (hp : p ∈ iterPaths env raspi fsf k1) (hq : q ∈ iterPaths env raspi fsf k2) :
    p ≠ q := by
  rcases iterPaths_mem env raspi fsf k1 p hp with (hp1 | hp1) | (hp1 | hp1) <;>
    rcases iterPaths_mem env raspi fsf k2 q hq with (hq1 | hq1) | (hq1 | hq1) <;>
    subst hp1 <;> subst hq1 <;>
    first
    | exact fun heq => hdne (depthRawPath_inj raspi heq)
    | exact fun heq => hdne (depthMetaPath_inj raspi heq)
    | exact fun heq => hcne (colourPngPath_inj raspi heq)
    | exact fun heq => hcne (colourMetaPath_inj raspi heq)
    | exact depthRaw_ne_depthMeta raspi raspi _ _
    | exact Ne.symm (depthRaw_ne_depthMeta raspi raspi _ _)
    | exact depthRaw_ne_colourPng raspi raspi _ _
    | exact Ne.symm (depthRaw_ne_colourPng raspi raspi _ _)
    | exact depthRaw_ne_colourMeta raspi raspi _ _
    | exact Ne.symm (depthRaw_ne_colourMeta raspi raspi _ _)
    | exact depthMeta_ne_colourPng raspi raspi _ _
    | exact Ne.symm (depthMeta_ne_colourPng raspi raspi _ _)
    | exact depthMeta_ne_colourMeta raspi raspi _ _
    | exact Ne.symm (depthMeta_ne_colourMeta raspi raspi _ _)
    | exact colourPng_ne_colourMeta raspi raspi _ _
    | exact Ne.symm (colourPng_ne_colourMeta raspi raspi _ _)

theorem loopWrites_map_path (env : Sdk) (raspi : String) (fsf : Nat → Frameset)
    (k r : Nat) :
    (loopWrites env raspi fsf k (r + 1)).map (fun w => w.path) =
      iterPaths env raspi fsf k ++
        (loopWrites env raspi fsf (k + 1) r).map (fun w => w.path) := by
  simp [loopWrites, iterPaths, List.map_append, List.append_assoc]

theorem mem_loopWrites_paths (env : Sdk) (raspi : String) (fsf : Nat → Frameset) :
    ∀ (r k : Nat) (p : String),
      p ∈ (loopWrites env raspi fsf k r).map (fun w => w.path) →
      ∃ t, t < r ∧ p ∈ iterPaths env raspi fsf (k + t) := by
  intro r
  induction r with
  | zero =>
    intro k p hp
    simp [loopWrites] at hp
  | succ r ih =>
    intro k p hp
    rw [loopWrites_map_path, List.mem_append] at hp
    rcases hp with hp | hp
    · exact ⟨0, by omega, by simpa using hp⟩
    · obtain ⟨t, ht, hmem⟩ := ih (k + 1) p hp
      exact ⟨t + 1, by omega, by
        have hsh : k + 1 + t = k + (t + 1) := by omega
        rwa [hsh] at hmem⟩

theorem loopWrites_paths_pairwise (env : Sdk) (raspi : String)
    (fsf : Nat → Frameset) :
    ∀ (r k : Nat),
      (∀ k1 k2, k ≤ k1 → k1 < k2 → k2 < k + r →
        depthNum env fsf k1 ≠ depthNum env fsf k2) →
      (∀ k1 k2, k ≤ k1 → k1 < k2 → k2 < k + r →
        colorNum fsf k1 ≠ colorNum fsf k2) →
      ((loopWrites env raspi fsf k r).map (fun w => w.path)).Pairwise
        (fun p q => p ≠ q) := by
  intro r
  induction r with
  | zero =>
    intro k _ _
    simp [loopWrites]
  | succ r ih =>
    intro k hd hc
    rw [loopWrites_map_path, List.pairwise_append]
    refine ⟨iterPaths_pairwise env raspi fsf k, ?_, ?_⟩
    · exact ih (k + 1)
        (fun k1 k2 hk1 hk2 hk3 => hd k1 k2 (by omega) hk2 (by omega))
        (fun k1 k2 hk1 hk2 hk3 => hc k1 k2 (by omega) hk2 (by omega))
    · intro p hp q hq
      obtain ⟨t, ht, hmem⟩ := mem_loopWrites_paths env raspi fsf r (k + 1) q hq
      exact iterPaths_cross env raspi fsf k (k + 1 + t) p q
        (hd k (k + 1 + t) (by omega) (by omega) (by omega))
        (hc k (k + 1 + t) (by omega) (by omega) (by omega)) hp hmem

/-- C7: in a normal run whose per-stream frame numbers are strictly
increasing across iterations, every artifact path has the form
`<dir>/<device_label>_<stream>_<frame_number>.<ext>` (metadata files with
the `_metadata` infix), and no two files written in the run share a path
— nothing is overwritten. -/
theorem artifact_filenames_unique (env : Sdk) (inp : RunInput) (a1 a2 : String)
    (fsf : Nat → Frameset) (n : Nat) (h : NormalRun inp a1 a2 fsf n)
    (hd : ∀ i j, i < j → j < n →
      depthNum env fsf (30 + i) < depthNum env fsf (30 + j))
    (hc : ∀ i j, i < j → j < n →
      colorNum fsf (30 + i) < colorNum fsf (30 + j)) :
    ((mainRun env inp).writes.map (fun w => w.path)).Pairwise (fun p q => p ≠ q) ∧
    (∀ w, w ∈ (mainRun env inp).writes → ∃ num,
      w.path = depthRawPath a2 num ∨ w.path = depthMetaPath a2 num ∨
      w.path = colourPngPath a2 num ∨ w.path = colourMetaPath a2 num) := by
  rw [mainRun_normal env inp a1 a2 fsf n h]
  dsimp only
  constructor
  · apply loopWrites_paths_pairwise env a2 fsf n 30
    · intro k1 k2 hk1 hk2 hk3
      have := hd (k1 - 30) (k2 - 30) (by omega) (by omega)
      have e1 : 30 + (k1 - 30) = k1 := by omega
      have e2 : 30 + (k2 - 30) = k2 := by omega
      rw [e1, e2] at this
      omega
    · intro k1 k2 hk1 hk2 hk3
      have := hc (k1 - 30) (k2 - 30) (by omega) (by omega)
      have e1 : 30 + (k1 - 30) = k1 := by omega
      have e2 : 30 + (k2 - 30) = k2 := by omega
      rw [e1, e2] at this
      omega
  · intro w hw
    have hp : w.path ∈ (loopWrites env a2 fsf 30 n).map (fun v => v.path) :=
      List.mem_map_of_mem (fun v => v.path) hw
    obtain ⟨t, ht, hmem⟩ := mem_loopWrites_paths env a2 fsf n 30 w.path hp
    rcases iterPaths_mem env a2 fsf (30 + t) w.path hmem with (h1 | h1) | (h1 | h1)
    · exact ⟨depthNum env fsf (30 + t), Or.inl h1⟩
    · exact ⟨depthNum env fsf (30 + t), Or.inr (Or.inl h1)⟩
    · exact ⟨colorNum fsf (30 + t), Or.inr (Or.inr (Or.inl h1))⟩
    · exact ⟨colorNum fsf (30 + t), Or.inr (Or.inr (Or.inr h1))⟩

/-- Framesets with strictly increasing frame numbers per stream. -/
def wFramesetSeq : Nat → Frameset := fun k =>
  ⟨⟨k, RsStream.depth, wMeta, some wVideo⟩,
    ⟨k + 1000, RsStream.color, wMeta, some wVideo⟩⟩

/-- A healthy 2-frame run whose frame numbers increase per stream. -/
def wInputSeq : RunInput :=
  ⟨1, some "2", some "pi", none, fun k => Except.ok (wFramesetSeq k)⟩

/-- Witness for C7: the concrete increasing-frame-number run writes
pairwise-distinct paths. -/
theorem artifact_filenames_unique_witness :
    ((mainRun wSdk wInputSeq).writes.map (fun w => w.path)).Pairwise
      (fun p q => p ≠ q) := by
  have h := artifact_filenames_unique wSdk wInputSeq "2" "pi" wFramesetSeq 2
    ⟨by decide, rfl, rfl, rfl, by decide, fun k _ => rfl⟩
    (fun i j hij hj => by
      show (30 : Nat) + i < 30 + j
      omega)
    (fun i j hij hj => by
      show (30 : Nat) + i + 1000 < 30 + j + 1000
      omega)
  exact h.1

end EdgeComputer
